import Mathlib

/-!
Shallow embedding of the hardhat-lottery-v2-with-Oracle repository.

The repository holds five source files: the hardhat configuration, the deploy
script (src/deploy/01-deploy-raffle.js), a front-end export script
(src/unnamed/part_001), and unit plus staging test suites driving the Raffle
contract. The Raffle contract itself is not among the source files, so its
state machine and operations are modelled from the specification (section 3,
section 4 and section 7 of spec.md); the deploy script and the front-end
export script are embedded directly from their JavaScript sources.

Currency amounts, timestamps and addresses are modelled as Nat. A call that
reverts is modelled as an Except error: the caller keeps the pre-call state
untouched, which is the atomic-abort semantics of the execution environment.
-/

namespace RaffleSpec

/-- Modelled from the spec: the raffle state enum, OPEN accepts entries and
CALCULATING blocks entries while awaiting randomness (spec section 3). -/
inductive RState where
  | OPEN
  | CALCULATING
deriving DecidableEq, Repr

/-- Modelled from the spec: the five error kinds of spec section 7. -/
inductive RaffleError where
  | NotEnoughPaid
  | NotOpen
  | UpkeepNotNeeded
  | TransferFailed
  | NonexistentRequest
deriving DecidableEq, Repr

/-- Modelled from the spec: the events observable by off-chain listeners
(entry-recorded, request-submitted with the request id, winner-picked). -/
inductive RaffleEvent where
  | RaffleEnter (player : Nat)
  | RequestedRaffleWinner (requestId : Nat)
  | WinnerPicked (winner : Nat)
deriving DecidableEq, Repr

/-- Modelled from the spec: the singleton on-chain Raffle record of spec
section 3, together with the contract balance (the funds held by the
contract, increased by each paid entry and emptied by the payout). -/
structure Raffle where
  entranceFee : Nat
  interval : Nat
  players : List Nat
  raffleState : RState
  lastTimestamp : Nat
  recentWinner : Nat
  pendingRequestId : Nat
  balance : Nat
deriving DecidableEq, Repr

/-- Modelled from the spec: the world around the contract: the raffle record,
the external account balances (payout target of the winner), and the oracle
counter handing out request identifiers. The mock oracle used by the unit
tests starts its counter at 1, so a positive counter is the oracle invariant. -/
structure World where
  raffle : Raffle
  balances : Nat → Nat
  nextRequestId : Nat

/-- Modelled from the spec, section 4.2: the read-only upkeep predicate.
upkeepNeeded = isOpen && timePassed && hasPlayers && hasBalance, where
timePassed = now - lastTimestamp >= interval. It is a pure function of the
observation time and the raffle record: it has no side effects by
construction. -/
def checkUpkeep (now : Nat) (r : Raffle) : Bool :=
  decide (r.raffleState = RState.OPEN)
    && decide (r.interval ≤ now - r.lastTimestamp)
    && !r.players.isEmpty
    && decide (0 < r.balance)

/-- Modelled from the spec, section 4.1: entry handling. The call carries a
payment of value; it fails with NotEnoughPaid if value < entranceFee, then
fails with NotOpen if the state is not OPEN; on success it appends the caller
to players, adds the payment to the contract balance and emits the entry
event. -/
def enterRaffle (sender value : Nat) (r : Raffle) :
    Except RaffleError (Raffle × List RaffleEvent) :=
  if value < r.entranceFee then
    .error RaffleError.NotEnoughPaid
  else if r.raffleState ≠ RState.OPEN then
    .error RaffleError.NotOpen
  else
    .ok ({ r with players := r.players ++ [sender], balance := r.balance + value },
      [RaffleEvent.RaffleEnter sender])

/-- Modelled from the spec, section 4.3: upkeep execution. It re-validates the
predicate and fails with UpkeepNotNeeded when it is false; on success it sets
the state to CALCULATING, issues a randomness request to the oracle (the
oracle returns its counter as the request identifier and advances it),
records the identifier and emits the request-submitted event. -/
def performUpkeep (now : Nat) (w : World) :
    Except RaffleError (World × List RaffleEvent) :=
  if checkUpkeep now w.raffle then
    .ok ({ w with
        raffle := { w.raffle with
          raffleState := RState.CALCULATING,
          pendingRequestId := w.nextRequestId },
        nextRequestId := w.nextRequestId + 1 },
      [RaffleEvent.RequestedRaffleWinner w.nextRequestId])
  else
    .error RaffleError.UpkeepNotNeeded

/-- Modelled from the spec, section 4.4: the winner index is the random value
modulo the number of players, and the winner is the player at that index. -/
def selectWinner (randomValue : Nat) (players : List Nat) : Nat :=
  players.getD (randomValue % players.length) 0

/-- Modelled from the spec, section 4.4: randomness fulfillment. The callback
carries a request identifier and the random value; it fails with
NonexistentRequest when the identifier does not match the outstanding request
(there is one exactly when the state is CALCULATING, and it carries
pendingRequestId). On success it sets recentWinner, clears players, reopens
the raffle, stamps the current time, transfers the entire contract balance to
the winner and emits the winner-picked event. -/
def fulfillRandomWords (requestId randomValue now : Nat) (w : World) :
    Except RaffleError (World × List RaffleEvent) :=
  if w.raffle.raffleState = RState.CALCULATING ∧ requestId = w.raffle.pendingRequestId then
    let winner := selectWinner randomValue w.raffle.players
    let prize := w.raffle.balance
    .ok ({ w with
        raffle := { w.raffle with
          recentWinner := winner,
          players := [],
          raffleState := RState.OPEN,
          lastTimestamp := now,
          balance := 0 },
        balances := fun a => if a = winner then w.balances a + prize else w.balances a },
      [RaffleEvent.WinnerPicked winner])
  else
    .error RaffleError.NonexistentRequest

/-- Embedded from src/deploy/01-deploy-raffle.js (lines 17 to 19): the
constructor argument list built by the deploy script. It is left empty in the
source: the script never reads the per-network configuration values (entrance
fee, interval, oracle endpoint parameters) into it, and the preceding
development-chain block is an unfinished fragment (a dangling identifier). -/
def deployRaffleArgs : List Nat := []

/-- Modelled from the spec: the Raffle constructor is not among the source
files (only the deploy script and the tests reference it). Per spec sections
3 and 6, deployment must supply the per-network entrance fee and interval,
which the constructor fixes immutably in the created record. The constructor
is given the optional entrance fee and interval extracted from the deployment
argument list and builds the initial raffle only when both are supplied. -/
def constructRaffle (feeArg intervalArg : Option Nat) (now : Nat) : Option Raffle :=
  match feeArg, intervalArg with
  | some fee, some itv =>
    some { entranceFee := fee, interval := itv, players := [],
           raffleState := RState.OPEN, lastTimestamp := now, recentWinner := 0,
           pendingRequestId := 0, balance := 0 }
  | _, _ => none

/-- Embedded from src/deploy/01-deploy-raffle.js (lines 20 to 25): the deploy
call passes deployRaffleArgs to the constructor, so the entrance fee and the
interval are whatever that argument list supplies. -/
def deployRaffle (now : Nat) : Option Raffle :=
  constructRaffle deployRaffleArgs[0]? deployRaffleArgs[1]? now

/-- Embedded from src/unnamed/part_001 updateContractAddresses (lines 25 to
27): push the address onto the list only when the list does not already
include it. -/
def addAddress (addrs : List String) (address : String) : List String :=
  if address ∈ addrs then addrs else addrs ++ [address]

/-- Embedded from src/unnamed/part_001 updateContractAddresses (line 24): the
chainId-in-currentAddresses key test on the addresses object, modelled as an
association list. -/
def hasChain (chainId : String) (m : List (String × List String)) : Bool :=
  m.any (fun kv => kv.1 == chainId)

/-- Embedded from src/unnamed/part_001 updateContractAddresses (lines 24 to
31): the in-place mutation of the entry under chainId, as a map over the
association list that rewrites entries carrying that key. -/
def updateEntry (chainId address : String) (kv : String × List String) :
    String × List String :=
  if kv.1 == chainId then (kv.1, addAddress kv.2 address) else kv

/-- Embedded from src/unnamed/part_001 updateContractAddresses (lines 20 to
33): when the chain id is already a key, add the address to its list unless
already present; otherwise append a new entry holding the singleton list. The
result is what the function writes back to the addresses file. -/
def updateContractAddresses (chainId address : String)
    (m : List (String × List String)) : List (String × List String) :=
  if hasChain chainId m then
    m.map (updateEntry chainId address)
  else
    m ++ [(chainId, [address])]

/-- Embedded from src/unnamed/part_001 (lines 4 and 5): the two fixed
front-end target files. -/
def FRONT_END_ADDRESSES_FILE : String :=
  "/Users/bulma/Documents/personal-web/personal/constants/lottery/contractAddresses.json"

/-- Embedded from src/unnamed/part_001 (line 5): the ABI target file. -/
def FRONT_END_ABI_FILE : String :=
  "/Users/bulma/Documents/personal-web/personal/constants/lottery/abi.json"

/-- JavaScript truthiness of an environment variable: the variable is either
absent or a string, and the empty string is the only falsy string. -/
def envTruthy : Option String → Bool
  | none => false
  | some s => !(s == "")

/-- A file write performed by the front-end export module: the addresses file
with its new contents, or the ABI file. -/
inductive FrontEndWrite where
  | addressesFile (path : String) (contents : List (String × List String))
  | abiFile (path : String)
deriving DecidableEq

/-- Embedded from src/unnamed/part_001 module.exports (lines 7 to 13): when
the UPDATE_FRONT_END environment variable is truthy, the module writes the
updated addresses file and then the ABI file; otherwise it performs no
writes. The returned list is the sequence of file writes performed. -/
def frontEndModule (updateFrontEndEnv : Option String) (chainId address : String)
    (current : List (String × List String)) : List FrontEndWrite :=
  if envTruthy updateFrontEndEnv then
    [FrontEndWrite.addressesFile FRONT_END_ADDRESSES_FILE
        (updateContractAddresses chainId address current),
      FrontEndWrite.abiFile FRONT_END_ABI_FILE]
  else
    []

/-- A concrete open raffle used to evaluate the theorems below: fee 10,
interval 30, one player, balance 10. -/
def openRaffle : Raffle :=
  { entranceFee := 10, interval := 30, players := [1],
    raffleState := RState.OPEN, lastTimestamp := 0, recentWinner := 0,
    pendingRequestId := 0, balance := 0 + 10 }

/-- A concrete raffle wedged in CALCULATING with four players, awaiting the
fulfillment of request 1. -/
def calcRaffle : Raffle :=
  { entranceFee := 10, interval := 30, players := [1, 2, 3, 4],
    raffleState := RState.CALCULATING, lastTimestamp := 0, recentWinner := 0,
    pendingRequestId := 1, balance := 40 }

/-- A concrete world around openRaffle whose oracle counter is at its initial
value 1. -/
def upkeepWorld : World :=
  { raffle := openRaffle, balances := fun _ => 0, nextRequestId := 1 }

/-- A concrete world around calcRaffle, after the oracle handed out request 1. -/
def fulfillWorld : World :=
  { raffle := calcRaffle, balances := fun _ => 100, nextRequestId := 2 }

/-- A concrete addresses file contents with one chain entry. -/
def sampleAddrMap : List (String × List String) := [("31337", ["0xabc"])]

/-- Claim C1: the upkeep predicate, a side-effect-free boolean function, is
true exactly when all four conditions hold at once: the state is OPEN, the
elapsed time since lastTimestamp is at least interval, the players sequence
is non-empty and the contract balance is positive. -/
theorem checkUpkeep_true_iff (now : Nat) (r : Raffle) :
    checkUpkeep now r = true ↔
      (r.raffleState = RState.OPEN ∧ r.interval ≤ now - r.lastTimestamp ∧
        r.players ≠ [] ∧ 0 < r.balance) := by
  simp [checkUpkeep, Bool.and_eq_true, List.isEmpty_iff, and_assoc]

/-- Claim C4: an entry whose payment is strictly below the entrance fee fails
with NotEnoughPaid, whatever the rest of the state; the error return models
the atomic revert, so the caller keeps the pre-call raffle unchanged. -/
theorem enterRaffle_underpaid (sender value : Nat) (r : Raffle)
    (h : value < r.entranceFee) :
    enterRaffle sender value r = .error RaffleError.NotEnoughPaid := by
  simp [enterRaffle, h]

/-- Witness for enterRaffle_underpaid at a concrete underpaying entry. -/
theorem enterRaffle_underpaid_witness :
    (0 : Nat) < openRaffle.entranceFee ∧
      enterRaffle 2 0 openRaffle = .error RaffleError.NotEnoughPaid :=
  ⟨by decide, enterRaffle_underpaid 2 0 openRaffle (by decide)⟩

/-- Counterexample to claim C5 as stated: an entry made while the raffle is
CALCULATING but paying less than the entrance fee fails with NotEnoughPaid,
not with NotOpen, because the payment check runs first (spec section 4.1). -/
theorem enterRaffle_calculating_underpaid_counterexample :
    calcRaffle.raffleState = RState.CALCULATING ∧
    enterRaffle 5 0 calcRaffle = .error RaffleError.NotEnoughPaid ∧
    RaffleError.NotEnoughPaid ≠ RaffleError.NotOpen :=
  ⟨rfl, rfl, by decide⟩

/-- Claim C5 amended: an entry made while the raffle is CALCULATING and
paying at least the entrance fee fails with NotOpen (an underpaying entry
fails with NotEnoughPaid first); an entry made while OPEN and paying at least
the fee succeeds, appends the caller to players, adds the payment to the
contract balance, emits the entry event, and changes nothing else. -/
theorem enterRaffle_state_cases (sender value : Nat) (r : Raffle) :
    (r.raffleState = RState.CALCULATING → r.entranceFee ≤ value →
      enterRaffle sender value r = .error RaffleError.NotOpen) ∧
    (r.raffleState = RState.OPEN → r.entranceFee ≤ value →
      enterRaffle sender value r =
        .ok ({ r with players := r.players ++ [sender], balance := r.balance + value },
          [RaffleEvent.RaffleEnter sender])) := by
  constructor
  · intro hs hv
    simp [enterRaffle, Nat.not_lt.mpr hv, hs]
  · intro hs hv
    simp [enterRaffle, Nat.not_lt.mpr hv, hs]

/-- Witness for enterRaffle_state_cases: both cases evaluated at concrete
entries paying the fee exactly. -/
theorem enterRaffle_state_cases_witness :
    enterRaffle 5 10 calcRaffle = .error RaffleError.NotOpen ∧
    enterRaffle 5 10 openRaffle =
      .ok ({ openRaffle with players := openRaffle.players ++ [5], balance := openRaffle.balance + 10 },
        [RaffleEvent.RaffleEnter 5]) :=
  ⟨(enterRaffle_state_cases 5 10 calcRaffle).1 rfl (by decide),
    (enterRaffle_state_cases 5 10 openRaffle).2 rfl (by decide)⟩

/-- Claim C7: a fulfillment callback whose request id does not match the
outstanding request (either the raffle is not CALCULATING, so no request is
outstanding, or the id differs from the recorded one) fails with
NonexistentRequest; the error return models the atomic revert, so every
field of the raffle, the balances and the oracle counter stay as they were. -/
theorem fulfillRandomWords_unknown_request (requestId randomValue now : Nat)
    (w : World)
    (h : w.raffle.raffleState ≠ RState.CALCULATING ∨
      requestId ≠ w.raffle.pendingRequestId) :
    fulfillRandomWords requestId randomValue now w =
      .error RaffleError.NonexistentRequest := by
  have hn : ¬(w.raffle.raffleState = RState.CALCULATING ∧
      requestId = w.raffle.pendingRequestId) := by
    rcases h with h | h <;> intro hc
    · exact h hc.1
    · exact h hc.2
  unfold fulfillRandomWords
  rw [if_neg hn]

/-- Witness for fulfillRandomWords_unknown_request: fulfilling against an
open raffle, where no request is outstanding, is rejected. -/
theorem fulfillRandomWords_unknown_request_witness :
    fulfillRandomWords 5 7 50 upkeepWorld = .error RaffleError.NonexistentRequest :=
  fulfillRandomWords_unknown_request 5 7 50 upkeepWorld (Or.inl (by decide))

/-- Claim C2: a fulfillment callback carrying the outstanding request id (the
raffle is CALCULATING and the id matches the recorded one; the players list
is non-empty on every reachable CALCULATING state, since upkeep requires it)
succeeds and: picks the recent winner among the pre-reset players, clears the
players, reopens the raffle, stamps the fulfillment time, empties the
contract balance and credits the winner account with exactly the prior
contract balance. -/
theorem fulfillRandomWords_valid (requestId randomValue now : Nat) (w : World)
    (hstate : w.raffle.raffleState = RState.CALCULATING)
    (hreq : requestId = w.raffle.pendingRequestId)
    (hplayers : w.raffle.players ≠ []) :
    ∃ w1 : World,
      fulfillRandomWords requestId randomValue now w =
        .ok (w1, [RaffleEvent.WinnerPicked w1.raffle.recentWinner]) ∧
      w1.raffle.recentWinner ∈ w.raffle.players ∧
      w1.raffle.players = [] ∧
      w1.raffle.raffleState = RState.OPEN ∧
      w1.raffle.lastTimestamp = now ∧
      w1.raffle.balance = 0 ∧
      w1.balances w1.raffle.recentWinner =
        w.balances w1.raffle.recentWinner + w.raffle.balance := by
  have hcond : w.raffle.raffleState = RState.CALCULATING ∧
      requestId = w.raffle.pendingRequestId := ⟨hstate, hreq⟩
  unfold fulfillRandomWords
  rw [if_pos hcond]
  refine ⟨_, rfl, ?_, rfl, rfl, rfl, rfl, ?_⟩
  · unfold selectWinner
    have hlen : 0 < w.raffle.players.length := List.length_pos.mpr hplayers
    have hlt : randomValue % w.raffle.players.length < w.raffle.players.length :=
      Nat.mod_lt randomValue hlen
    rw [List.getD_eq_getElem w.raffle.players 0 hlt]
    exact List.getElem_mem hlt
  · simp

/-- Witness for fulfillRandomWords_valid: fulfilling request 1 with random
value 7 against the concrete CALCULATING world. -/
theorem fulfillRandomWords_valid_witness :
    ∃ w1 : World,
      fulfillRandomWords 1 7 50 fulfillWorld =
        .ok (w1, [RaffleEvent.WinnerPicked w1.raffle.recentWinner]) ∧
      w1.raffle.recentWinner ∈ fulfillWorld.raffle.players ∧
      w1.raffle.players = [] ∧
      w1.raffle.raffleState = RState.OPEN ∧
      w1.raffle.lastTimestamp = 50 ∧
      w1.raffle.balance = 0 ∧
      w1.balances w1.raffle.recentWinner =
        fulfillWorld.balances w1.raffle.recentWinner + fulfillWorld.raffle.balance :=
  fulfillRandomWords_valid 1 7 50 fulfillWorld (by decide) (by decide) (by decide)

/-- Claim C3: winner selection is a deterministic function of the random
value and the final players sequence: the successful fulfillment picks the
player at index randomValue mod players.length of the pre-reset list. -/
theorem fulfillRandomWords_winner_index (requestId randomValue now : Nat)
    (w : World)
    (hstate : w.raffle.raffleState = RState.CALCULATING)
    (hreq : requestId = w.raffle.pendingRequestId)
    (hplayers : w.raffle.players ≠ []) :
    ∃ (w1 : World) (ev : List RaffleEvent)
      (hlt : randomValue % w.raffle.players.length < w.raffle.players.length),
      fulfillRandomWords requestId randomValue now w = .ok (w1, ev) ∧
      w1.raffle.recentWinner =
        w.raffle.players.get ⟨randomValue % w.raffle.players.length, hlt⟩ := by
  have hcond : w.raffle.raffleState = RState.CALCULATING ∧
      requestId = w.raffle.pendingRequestId := ⟨hstate, hreq⟩
  have hlen : 0 < w.raffle.players.length := List.length_pos.mpr hplayers
  have hlt : randomValue % w.raffle.players.length < w.raffle.players.length :=
    Nat.mod_lt randomValue hlen
  unfold fulfillRandomWords
  rw [if_pos hcond]
  refine ⟨_, _, hlt, rfl, ?_⟩
  unfold selectWinner
  exact (List.getD_eq_getElem w.raffle.players 0 hlt).trans
    (List.get_eq_getElem w.raffle.players ⟨_, hlt⟩).symm

/-- Witness for fulfillRandomWords_winner_index: with four players and random
value 7, the winner is the player at index 7 mod 4 = 3. -/
theorem fulfillRandomWords_winner_index_witness :
    ∃ (w1 : World) (ev : List RaffleEvent)
      (hlt : 7 % fulfillWorld.raffle.players.length <
        fulfillWorld.raffle.players.length),
      fulfillRandomWords 1 7 50 fulfillWorld = .ok (w1, ev) ∧
      w1.raffle.recentWinner =
        fulfillWorld.raffle.players.get
          ⟨7 % fulfillWorld.raffle.players.length, hlt⟩ :=
  fulfillRandomWords_winner_index 1 7 50 fulfillWorld (by decide) (by decide) (by decide)

/-- Claim C6: upkeep execution while the predicate is false fails with
UpkeepNotNeeded; a successful upkeep execution leaves the raffle CALCULATING
with a positive request id recorded (the oracle counter is positive, starting
at 1), after which the predicate is false at every later time because the
state is no longer OPEN, so a second upkeep execution before fulfillment
fails with UpkeepNotNeeded: at most one randomness request is outstanding. -/
theorem performUpkeep_transition (now later : Nat) (w : World)
    (hid : 0 < w.nextRequestId) :
    (checkUpkeep now w.raffle = false →
      performUpkeep now w = .error RaffleError.UpkeepNotNeeded) ∧
    (checkUpkeep now w.raffle = true →
      ∃ (w1 : World) (ev : List RaffleEvent),
        performUpkeep now w = .ok (w1, ev) ∧
        w1.raffle.raffleState = RState.CALCULATING ∧
        0 < w1.raffle.pendingRequestId ∧
        checkUpkeep later w1.raffle = false ∧
        performUpkeep later w1 = .error RaffleError.UpkeepNotNeeded) := by
  constructor
  · intro hfalse
    simp [performUpkeep, hfalse]
  · intro htrue
    have hrun : performUpkeep now w =
        .ok ({ w with
            raffle := { w.raffle with
              raffleState := RState.CALCULATING,
              pendingRequestId := w.nextRequestId },
            nextRequestId := w.nextRequestId + 1 },
          [RaffleEvent.RequestedRaffleWinner w.nextRequestId]) := by
      simp [performUpkeep, htrue]
    refine ⟨_, _, hrun, rfl, hid, ?_, ?_⟩
    · simp [checkUpkeep]
    · simp [performUpkeep, checkUpkeep]

/-- Witness for performUpkeep_transition: the concrete open world with one
player and a positive balance, observed after the interval elapsed. -/
theorem performUpkeep_transition_witness :
    ∃ (w1 : World) (ev : List RaffleEvent),
      performUpkeep 31 upkeepWorld = .ok (w1, ev) ∧
      w1.raffle.raffleState = RState.CALCULATING ∧
      0 < w1.raffle.pendingRequestId ∧
      checkUpkeep 100 w1.raffle = false ∧
      performUpkeep 100 w1 = .error RaffleError.UpkeepNotNeeded :=
  (performUpkeep_transition 31 100 upkeepWorld (by decide)).2 (by decide)

/-- Claim C8 (code bug): the deploy script builds an empty constructor
argument list — it never reads the per-network configured entrance fee,
interval or oracle parameters into it — so the modelled construction, which
needs the entrance fee and the interval, fails at deployment for every
deployment time, while the unit test Constructor block expects the deployed
interval to equal the per-network configured value. -/
theorem deployRaffle_args_empty :
    deployRaffleArgs = [] ∧ ∀ now : Nat, deployRaffle now = none :=
  ⟨rfl, fun _ => rfl⟩

theorem addAddress_mem (addrs : List String) (address : String) :
    address ∈ addAddress addrs address := by
  unfold addAddress
  split
  · assumption
  · simp

theorem addAddress_of_mem {addrs : List String} {address : String}
    (h : address ∈ addrs) : addAddress addrs address = addrs :=
  if_pos h

theorem addAddress_idem (addrs : List String) (address : String) :
    addAddress (addAddress addrs address) address = addAddress addrs address :=
  addAddress_of_mem (addAddress_mem addrs address)

theorem updateEntry_fst (chainId address : String) (kv : String × List String) :
    (updateEntry chainId address kv).1 = kv.1 := by
  unfold updateEntry
  split <;> rfl

theorem updateEntry_idem (chainId address : String) (kv : String × List String) :
    updateEntry chainId address (updateEntry chainId address kv) =
      updateEntry chainId address kv := by
  unfold updateEntry
  by_cases h : kv.1 == chainId
  · simp [h, addAddress_idem]
  · simp [h]

theorem hasChain_map_updateEntry (chainId address : String)
    (m : List (String × List String)) :
    hasChain chainId (m.map (updateEntry chainId address)) = hasChain chainId m := by
  induction m with
  | nil => rfl
  | cons kv t ih =>
    simp only [hasChain, List.map_cons, List.any_cons] at *
    rw [updateEntry_fst, ih]

theorem map_updateEntry_of_not_hasChain {chainId address : String}
    {m : List (String × List String)} (h : hasChain chainId m = false) :
    m.map (updateEntry chainId address) = m := by
  induction m with
  | nil => rfl
  | cons kv t ih =>
    simp only [hasChain, List.any_cons, Bool.or_eq_false_iff] at h
    simp only [List.map_cons]
    rw [ih h.2]
    unfold updateEntry
    rw [if_neg (by simp [h.1])]

theorem addAddress_count {addrs : List String} {address : String}
    (h : addrs.count address ≤ 1) : (addAddress addrs address).count address ≤ 1 := by
  unfold addAddress
  split
  · exact h
  · rename_i hmem
    rw [List.count_append]
    have h0 : addrs.count address = 0 := List.count_eq_zero.mpr hmem
    simp [h0]

theorem updateContractAddresses_second_run (chainId address : String)
    (m : List (String × List String)) :
    updateContractAddresses chainId address
        (updateContractAddresses chainId address m) =
      updateContractAddresses chainId address m := by
  unfold updateContractAddresses
  by_cases h : hasChain chainId m
  · rw [if_pos h, if_pos (by rw [hasChain_map_updateEntry]; exact h)]
    rw [List.map_map]
    have hfun : updateEntry chainId address ∘ updateEntry chainId address =
        updateEntry chainId address :=
      funext (updateEntry_idem chainId address)
    rw [hfun]
  · rw [if_neg h]
    have h2 : hasChain chainId (m ++ [(chainId, [address])]) = true := by
      simp [hasChain, List.any_append]
    rw [if_pos h2, List.map_append,
      map_updateEntry_of_not_hasChain (Bool.eq_false_iff.mpr h)]
    have h3 : updateEntry chainId address (chainId, [address]) =
        (chainId, [address]) := by
      unfold updateEntry
      simp [addAddress_of_mem]
    simp [h3]

theorem updateContractAddresses_count (chainId address : String)
    (m : List (String × List String))
    (hm : ∀ kv ∈ m, kv.2.count address ≤ 1) :
    ∀ kv ∈ updateContractAddresses chainId address m, kv.2.count address ≤ 1 := by
  intro kv hkv
  unfold updateContractAddresses at hkv
  by_cases h : hasChain chainId m
  · rw [if_pos h] at hkv
    obtain ⟨q, hq, rfl⟩ := List.mem_map.mp hkv
    unfold updateEntry
    by_cases hk : q.1 == chainId
    · rw [if_pos hk]
      exact addAddress_count (hm q hq)
    · rw [if_neg hk]
      exact hm q hq
  · rw [if_neg h] at hkv
    rcases List.mem_append.mp hkv with h1 | h1
    · exact hm kv h1
    · simp only [List.mem_singleton] at h1
      subst h1
      simp

/-- Claim C9: the address export is idempotent: running
updateContractAddresses a second time with the same chain id and address
returns the addresses object unchanged, and, since the address is appended
only when not already present, a chain list holding the address at most once
keeps holding it at most once after the update. -/
theorem updateContractAddresses_idempotent (chainId address : String)
    (m : List (String × List String)) :
    updateContractAddresses chainId address
        (updateContractAddresses chainId address m) =
      updateContractAddresses chainId address m ∧
    ((∀ kv ∈ m, kv.2.count address ≤ 1) →
      ∀ kv ∈ updateContractAddresses chainId address m, kv.2.count address ≤ 1) :=
  ⟨updateContractAddresses_second_run chainId address m,
    updateContractAddresses_count chainId address m⟩

/-- Witness for updateContractAddresses_idempotent at a concrete addresses
file: a new address joins chain 31337 once, and running again changes
nothing. -/
theorem updateContractAddresses_idempotent_witness :
    updateContractAddresses "31337" "0xdef"
        (updateContractAddresses "31337" "0xdef" sampleAddrMap) =
      updateContractAddresses "31337" "0xdef" sampleAddrMap ∧
    ∀ kv ∈ updateContractAddresses "31337" "0xdef" sampleAddrMap,
      kv.2.count "0xdef" ≤ 1 :=
  ⟨(updateContractAddresses_idempotent "31337" "0xdef" sampleAddrMap).1,
    (updateContractAddresses_idempotent "31337" "0xdef" sampleAddrMap).2 (by decide)⟩

/-- Claim C10: the front-end export module performs no file write at all when
the UPDATE_FRONT_END environment variable is unset or falsy, and writes
exactly the addresses file followed by the ABI file when it is set to a
truthy value. -/
theorem frontEndModule_writes (v : Option String) (chainId address : String)
    (current : List (String × List String)) :
    (envTruthy v = false → frontEndModule v chainId address current = []) ∧
    (envTruthy v = true → frontEndModule v chainId address current =
      [FrontEndWrite.addressesFile FRONT_END_ADDRESSES_FILE
          (updateContractAddresses chainId address current),
        FrontEndWrite.abiFile FRONT_END_ABI_FILE]) := by
  constructor <;> intro h <;> simp [frontEndModule, h]

/-- Witness for frontEndModule_writes: with the variable unset no write
happens; with the variable set to a non-empty string both files are written. -/
theorem frontEndModule_writes_witness :
    frontEndModule none "31337" "0xabc" sampleAddrMap = [] ∧
    frontEndModule (some "true") "31337" "0xabc" sampleAddrMap =
      [FrontEndWrite.addressesFile FRONT_END_ADDRESSES_FILE
          (updateContractAddresses "31337" "0xabc" sampleAddrMap),
        FrontEndWrite.abiFile FRONT_END_ABI_FILE] :=
  ⟨(frontEndModule_writes none "31337" "0xabc" sampleAddrMap).1 rfl,
    (frontEndModule_writes (some "true") "31337" "0xabc" sampleAddrMap).2 (by decide)⟩

end RaffleSpec
